import Mathlib

/-!
Shallow embedding of the SCALE chat-session Lambda backend
(`lambda-function/app/main.py` and `lambda-function/app/lambda.py`).

The DynamoDB table is modelled as a list of items keyed by `chat_id`; the
OpenAI client is modelled as an oracle from the submitted message list to
either a reply (`Except.ok`, content possibly absent) or a raised exception
(`Except.error`).  Python exceptions escaping a function are modelled by the
`Except String` layer in each operation's result; a `StoreFaults` record says
which boto3 calls raise (the source wraps none of them in try/except inside
`main.py`, while `lambda.py`'s handler catches everything).
-/

namespace Scale

instance {ε α : Type} [DecidableEq ε] [DecidableEq α] : DecidableEq (Except ε α) :=
  fun a b =>
    match a, b with
    | .ok x, .ok y =>
        if h : x = y then .isTrue (by rw [h])
        else .isFalse (fun hc => h (Except.ok.inj hc))
    | .error x, .error y =>
        if h : x = y then .isTrue (by rw [h])
        else .isFalse (fun hc => h (Except.error.inj hc))
    | .ok _, .error _ => .isFalse (fun hc => Except.noConfusion hc)
    | .error _, .ok _ => .isFalse (fun hc => Except.noConfusion hc)

/-- A stored chat message.  `content` is `Option` because the code can store a
Python `None` content (the OpenAI reply content is `Optional[str]`). -/
structure Message where
  role : String
  content : Option String
  timestamp : String
deriving DecidableEq, Repr

/-- A DynamoDB item of the `vibe_chats` table, as written by `initialize_chat`. -/
structure ChatItem where
  chat_id : String
  user_id : String
  messages : List Message
  created_at : String
  updated_at : String
deriving DecidableEq, Repr

/-- The table, as a list of items (key: `chat_id`). -/
abbrev Store := List ChatItem

/-- Models `table.get_item` keyed by chat id. -/
def getItem (st : Store) (cid : String) : Option ChatItem :=
  st.find? (fun it => it.chat_id == cid)

/-- Models `table.put_item`: overwrite by key. -/
def putItem (st : Store) (it : ChatItem) : Store :=
  st.filter (fun x => x.chat_id ≠ it.chat_id) ++ [it]

/-- Models `table.update_item` setting `messages` and `updated_at`. -/
def updateItem (st : Store) (cid : String) (msgs : List Message) (upd : String) : Store :=
  st.map (fun it => if it.chat_id = cid then { it with messages := msgs, updated_at := upd } else it)

/-- Models `table.scan` filtered on user id: the number of items owned. -/
def userChatCount (st : Store) (uid : String) : Nat :=
  (st.filter (fun it => it.user_id == uid)).length

/-- A message as sent to the OpenAI API: role and content only. -/
structure GMsg where
  role : String
  content : Option String
deriving DecidableEq, Repr

/-- Projection of stored messages to role and content, as submitted to the API. -/
def toGMsgs (msgs : List Message) : List GMsg :=
  msgs.map (fun m => ⟨m.role, m.content⟩)

/-- The OpenAI client: either a reply content (possibly `None`) or a raised
exception with the given string rendering. -/
abbrev Gateway := List GMsg → Except String (Option String)

/-- Models `call_openai_api`: returns the reply content and no error on
success, and no reply plus the rendered error message when the client raises. -/
def call_openai_api (gw : Gateway) (messages : List GMsg) :
    Option String × Option String :=
  match gw messages with
  | .ok content => (content, none)
  | .error e => (none, some ("Error calling OpenAI API: " ++ e))

/-- Which boto3 table calls raise (and the exception's string rendering);
`none` everywhere models a healthy table. -/
structure StoreFaults where
  getFails : Option String
  scanFails : Option String
  putFails : Option String
  updateFails : Option String
deriving DecidableEq, Repr

/-- A healthy store: no boto3 call raises. -/
def noFaults : StoreFaults := ⟨none, none, none, none⟩

/-- Python truthiness of an `Optional[str]`. -/
def truthy : Option String → Bool
  | none => false
  | some s => s ≠ ""

def MAX_MESSAGES_PER_CHAT : Nat := 100

def MAX_CHATS_PER_USER : Nat := 20

/-- Result dictionary of `initialize_chat`. -/
inductive InitResult where
  | ok (chat_id : String) (user_id : String) (is_new : Bool) (messages : List Message)
  | err (msg : String)
deriving DecidableEq, Repr

/-- Result dictionary of `add_message_and_get_response`. -/
inductive ChatResult where
  | ok (message : Option String) (chat_id : String) (user_id : String)
  | err (msg : String)
deriving DecidableEq, Repr

/-- Result dictionary of `get_chat_history`. -/
inductive HistResult where
  | ok (item : ChatItem)
  | err (msg : String)
deriving DecidableEq, Repr

/-- The filter dropping system-role messages before returning them. -/
def visibleMessages (msgs : List Message) : List Message :=
  msgs.filter (fun m => m.role ≠ "system")

/-- The count of user-role messages, as used by the per-chat quota check. -/
def userMessageCount (msgs : List Message) : Nat :=
  (msgs.filter (fun m => m.role == "user")).length

/-- Whether a message list carries no `system`-role entry. -/
def noSystemMessages (msgs : List Message) : Bool :=
  msgs.all (fun m => m.role ≠ "system")

/-- The seed message sequence built by `initialize_chat` for a brand-new
session, in the source's fixed order: optional system message, optional seed
assistant message, optional seed user message (all timestamped `t1`). -/
def seedMessages (sm ia iu : Option String) (t1 : String) : List Message :=
  (if truthy sm then [⟨"system", sm, t1⟩] else [])
    ++ (if truthy ia then [⟨"assistant", ia, t1⟩] else [])
    ++ (if truthy iu then [⟨"user", iu, t1⟩] else [])

/-- Tail of `initialize_chat`: build the item and `put_item` it. -/
def finishInit (f : StoreFaults) (st : Store) (chat_id user_id : String)
    (msgs : List Message) (t1 : String) : Except String InitResult × Store :=
  match f.putFails with
  | some e => (.error e, st)
  | none =>
      (.ok (.ok chat_id user_id true (visibleMessages msgs)),
       putItem st ⟨chat_id, user_id, msgs, t1, t1⟩)

/-- Models `initialize_chat`.  `t1` is the first `datetime.now()` call (seed
timestamps, `created_at`, `updated_at`), `t2` the second (the generated
assistant reply). -/
def initialize_chat (f : StoreFaults) (gw : Gateway) (t1 t2 : String)
    (st : Store) (chat_id user_id : String)
    (system_message initial_assistant_message initial_user_message : Option String) :
    Except String InitResult × Store :=
  match f.getFails with
  | some e => (.error e, st)
  | none =>
    match getItem st chat_id with
    | some item =>
        if item.user_id ≠ "" ∧ item.user_id ≠ user_id then
          (.ok (.err "User ID mismatch"), st)
        else
          (.ok (.ok chat_id (if item.user_id ≠ "" then item.user_id else user_id) false
            (visibleMessages item.messages)), st)
    | none =>
      match f.scanFails with
      | some e => (.error e, st)
      | none =>
        if MAX_CHATS_PER_USER ≠ 0 ∧ userChatCount st user_id ≥ MAX_CHATS_PER_USER then
          (.ok (.err ("Maximum number of chats (" ++ toString MAX_CHATS_PER_USER
            ++ ") reached for this user.")), st)
        else
          let m1 : List Message :=
            if truthy system_message then [⟨"system", system_message, t1⟩] else []
          let m2 : List Message := m1 ++
            (if truthy initial_assistant_message then
              [⟨"assistant", initial_assistant_message, t1⟩] else [])
          if truthy initial_user_message then
            let m3 := m2 ++ [⟨"user", initial_user_message, t1⟩]
            let res := call_openai_api gw (toGMsgs m3)
            match res.2 with
            | some e => (.ok (.err e), st)
            | none =>
                let assistant_response := res.1
                let m4 := if truthy assistant_response then
                  m3 ++ [⟨"assistant", assistant_response, t2⟩] else m3
                finishInit f st chat_id user_id m4 t1
          else
            finishInit f st chat_id user_id m2 t1

/-- Models `add_message_and_get_response`.  `t1`, `t2`, `t3` are the three
`datetime.now()` calls (user message, assistant message, `updated_at`). -/
def add_message_and_get_response (f : StoreFaults) (gw : Gateway) (t1 t2 t3 : String)
    (st : Store) (chat_id user_id message : String) :
    Except String ChatResult × Store :=
  match f.getFails with
  | some e => (.error e, st)
  | none =>
    match getItem st chat_id with
    | none => (.ok (.err ("Chat session " ++ chat_id ++ " not found")), st)
    | some item =>
        if item.user_id ≠ "" ∧ item.user_id ≠ user_id then
          (.ok (.err "User ID mismatch"), st)
        else if MAX_MESSAGES_PER_CHAT ≠ 0 ∧
            userMessageCount item.messages ≥ MAX_MESSAGES_PER_CHAT then
          (.ok (.err ("Message limit of " ++ toString MAX_MESSAGES_PER_CHAT
            ++ " reached for this chat.")), st)
        else
          let msgs1 := item.messages ++ [⟨"user", some message, t1⟩]
          let res := call_openai_api gw (toGMsgs msgs1)
          match res.2 with
          | some e => (.ok (.err e), st)
          | none =>
              let assistant_message := res.1
              let msgs2 := msgs1 ++ [⟨"assistant", assistant_message, t2⟩]
              match f.updateFails with
              | some e => (.error e, st)
              | none =>
                  (.ok (.ok assistant_message chat_id user_id),
                   updateItem st chat_id msgs2 t3)

/-- Models `get_chat_history`: read-only, returns the full item. -/
def get_chat_history (f : StoreFaults) (st : Store) (chat_id user_id : String) :
    Except String HistResult :=
  match f.getFails with
  | some e => .error e
  | none =>
    match getItem st chat_id with
    | none => .ok (.err ("Chat session " ++ chat_id ++ " not found"))
    | some item =>
        if item.user_id ≠ "" ∧ item.user_id ≠ user_id then
          .ok (.err "User ID mismatch")
        else
          .ok (.ok item)

/-! ### The Lambda handler (`lambda.py`) -/

/-- The `ALLOWED_USER_IDS` list from `user_config.py` (shipped empty). -/
def ALLOWED_USER_IDS : List String := []

/-- Python `s.rstrip('/')`. -/
def rstripSlash (s : String) : String :=
  ⟨(s.data.reverse.dropWhile (fun c => c = '/')).reverse⟩

/-- The `_allowed` origin set: localhost plus the production origin when it is
set and not the wildcard. -/
def allowedOriginsList (prod : String) : List String :=
  if prod ≠ "" ∧ prod ≠ "*" then ["http://localhost:8000", prod]
  else ["http://localhost:8000"]

/-- Python `s.startswith(p)`, as a character-list prefix test. -/
def startswith (p s : String) : Bool :=
  p.data.isPrefixOf s.data

/-- Models the `_is_allowed_origin` check. -/
def is_allowed_origin (prod : String) (origin : String) : Bool :=
  (allowedOriginsList prod).any (fun a => startswith a origin)

/-- The request payload (JSON object fields, each possibly absent). -/
structure Payload where
  user_id : Option String
  chat_id : Option String
  message : Option String
  system_message : Option String
  initial_assistant_message : Option String
  initial_user_message : Option String
deriving DecidableEq, Repr

def emptyPayload : Payload := ⟨none, none, none, none, none, none⟩

/-- A parsed request body: `route` and `payload`. -/
structure ReqBody where
  route : Option String
  payload : Payload
deriving DecidableEq, Repr

/-- An API Gateway event: Origin header, HTTP method, and the body, where
`Except.error e` models `json.loads` raising an exception rendered as `e`. -/
structure Event where
  origin : Option String
  httpMethod : Option String
  body : Except String ReqBody

/-- The JSON body of a handler response: either one of the route results, a
bare `{'error': msg}` object, or the CORS preflight message.  A route result
carrying an `error` key is normalised to `errorBody` (its JSON rendering is
exactly `{'error': msg}`). -/
inductive RespBody where
  | preflight
  | initR (r : InitResult)
  | chatR (r : ChatResult)
  | histR (r : HistResult)
  | errorBody (msg : String)
deriving DecidableEq, Repr

/-- An API Gateway response: status code, the
`Access-Control-Allow-Origin` header when CORS headers are attached, body. -/
structure HandlerResponse where
  statusCode : Nat
  corsOrigin : Option String
  body : RespBody
deriving DecidableEq, Repr

/-- Status 200 when the result carries no error key, else 400, with the
result as the response body. -/
def respond (cors : Option String) (isErr : Option String) (okBody : RespBody) :
    HandlerResponse :=
  match isErr with
  | some m => ⟨400, cors, .errorBody m⟩
  | none => ⟨200, cors, okBody⟩

/-- The error key of an initialize result, if any. -/
def initErr : InitResult → Option String
  | .err m => some m
  | _ => none

/-- The error key of a chat result, if any. -/
def chatErr : ChatResult → Option String
  | .err m => some m
  | _ => none

/-- The error key of a history result, if any. -/
def histErr : HistResult → Option String
  | .err m => some m
  | _ => none

/-- Models `handler(event, context)`.  `prodEnv` is the `ALLOWED_PROD_ORIGIN`
environment variable. -/
def handler (prodEnv : String) (f : StoreFaults) (gw : Gateway) (t1 t2 t3 : String)
    (st : Store) (ev : Event) : HandlerResponse × Store :=
  let prod := rstripSlash prodEnv
  let wildcard := prod = "*"
  let origin := rstripSlash (ev.origin.getD "")
  if ¬ is_allowed_origin prod origin then
    (⟨403, none, .errorBody "Origin not allowed"⟩, st)
  else
    let cors : Option String := some (if wildcard then "*" else origin)
    if ev.httpMethod = some "OPTIONS" then
      (⟨200, cors, .preflight⟩, st)
    else
      match ev.body with
      | .error e => (⟨500, cors, .errorBody e⟩, st)
      | .ok body =>
        let payload := body.payload
        let missing := (if payload.user_id.isNone then ["user_id"] else []) ++
          (if payload.chat_id.isNone then ["chat_id"] else [])
        if missing ≠ [] then
          (⟨400, cors, .errorBody ("Missing: " ++ String.intercalate ", " missing)⟩, st)
        else
          let user_id := payload.user_id.getD ""
          let chat_id := payload.chat_id.getD ""
          if origin ≠ "http://localhost:8000" ∧ ALLOWED_USER_IDS ≠ [] ∧
              user_id ∉ ALLOWED_USER_IDS then
            (⟨403, none, .errorBody "User not allowed"⟩, st)
          else if body.route = some "initialize" then
            match initialize_chat f gw t1 t2 st chat_id user_id
                payload.system_message payload.initial_assistant_message
                payload.initial_user_message with
            | (.error e, st') => (⟨500, cors, .errorBody e⟩, st')
            | (.ok r, st') => (respond cors (initErr r) (.initR r), st')
          else if body.route = some "chat" then
            match payload.message with
            | none => (⟨500, cors, .errorBody "message is required"⟩, st)
            | some msg =>
              match add_message_and_get_response f gw t1 t2 t3 st chat_id user_id msg with
              | (.error e, st') => (⟨500, cors, .errorBody e⟩, st')
              | (.ok r, st') => (respond cors (chatErr r) (.chatR r), st')
          else if body.route = some "history" then
            match get_chat_history f st chat_id user_id with
            | .error e => (⟨500, cors, .errorBody e⟩, st)
            | .ok r => (respond cors (histErr r) (.histR r), st)
          else
            (respond cors (some "Invalid route specified")
              (.errorBody "Invalid route specified"), st)

/-! ### Concrete instances used by counterexamples and witnesses -/

/-- A session whose stored `user_id` is the empty string (which the code
itself can write, since the handler passes `payload['user_id']` through
unchecked). -/
def c3Store : Store := [⟨"c1", "", [], "t0", "t0"⟩]

/-- An event that passes the origin, payload-field and user checks but asks
for an unknown route. -/
def c8Event : Event :=
  { origin := some "http://localhost:8000", httpMethod := some "POST",
    body := .ok { route := some "bogus",
                  payload := { emptyPayload with user_id := some "u1", chat_id := some "c1" } } }

/-- A faulty table whose `get_item` raises an exception rendered `"boom"`. -/
def getRaises : StoreFaults := ⟨some "boom", none, none, none⟩

/-! ### Theorems -/

/-- C1: for every stored session reached by `add_message_and_get_response`
(session present, owner check and message quota pass), if the Completion
Gateway call fails then the operation returns the gateway error as an
`{error: ...}` result and the stored state is exactly as before the call: the
user's new message is not persisted. -/
theorem c1_append_gateway_failure_preserves_store
    (st : Store) (gw : Gateway) (t1 t2 t3 chat_id user_id message e : String)
    (item : ChatItem)
    (hget : getItem st chat_id = some item)
    (howner : ¬ (item.user_id ≠ "" ∧ item.user_id ≠ user_id))
    (hquota : userMessageCount item.messages < MAX_MESSAGES_PER_CHAT)
    (hgw : gw (toGMsgs (item.messages ++ [⟨"user", some message, t1⟩])) = .error e) :
    add_message_and_get_response noFaults gw t1 t2 t3 st chat_id user_id message
      = (.ok (.err ("Error calling OpenAI API: " ++ e)), st) := by
  have hq : ¬ (MAX_MESSAGES_PER_CHAT ≠ 0 ∧
      userMessageCount item.messages ≥ MAX_MESSAGES_PER_CHAT) :=
    fun h => absurd h.2 (not_le.2 hquota)
  simp [add_message_and_get_response, noFaults, hget, howner, hq, call_openai_api, hgw]

/-- Witness for C1 at a concrete session and a gateway that fails. -/
theorem c1_witness :
    add_message_and_get_response noFaults (fun _ => .error "boom") "t1" "t2" "t3"
        [⟨"c1", "u1", [], "t0", "t0"⟩] "c1" "u1" "hello"
      = (.ok (.err "Error calling OpenAI API: boom"), [⟨"c1", "u1", [], "t0", "t0"⟩]) :=
  c1_append_gateway_failure_preserves_store
    [⟨"c1", "u1", [], "t0", "t0"⟩] (fun _ => .error "boom") "t1" "t2" "t3"
    "c1" "u1" "hello" "boom" ⟨"c1", "u1", [], "t0", "t0"⟩
    rfl (by decide) (by decide) rfl

/-- C2: initializing a non-existent session with a seed user message while the
Gateway fails returns an `{error: ...}` result and persists nothing: the store
is unchanged and `get` on that session id still returns absent. -/
theorem c2_init_gateway_failure_no_persist
    (st : Store) (gw : Gateway) (t1 t2 chat_id user_id e : String)
    (system_message initial_assistant_message initial_user_message : Option String)
    (hget : getItem st chat_id = none)
    (hquota : userChatCount st user_id < MAX_CHATS_PER_USER)
    (hiu : truthy initial_user_message = true)
    (hgw : ∀ ms, gw ms = .error e) :
    initialize_chat noFaults gw t1 t2 st chat_id user_id
        system_message initial_assistant_message initial_user_message
        = (.ok (.err ("Error calling OpenAI API: " ++ e)), st)
      ∧ getItem (initialize_chat noFaults gw t1 t2 st chat_id user_id
          system_message initial_assistant_message initial_user_message).2 chat_id
        = none := by
  have hq : ¬ (MAX_CHATS_PER_USER ≠ 0 ∧ userChatCount st user_id ≥ MAX_CHATS_PER_USER) :=
    fun h => absurd h.2 (not_le.2 hquota)
  have h1 : initialize_chat noFaults gw t1 t2 st chat_id user_id
      system_message initial_assistant_message initial_user_message
      = (.ok (.err ("Error calling OpenAI API: " ++ e)), st) := by
    simp [initialize_chat, noFaults, hget, hq, hiu, call_openai_api, hgw]
  exact ⟨h1, by rw [h1]; exact hget⟩

/-- Witness for C2 on an empty store and a gateway that fails. -/
theorem c2_witness :
    initialize_chat noFaults (fun _ => .error "down") "t1" "t2" [] "c1" "u1"
        none none (some "hi")
        = (.ok (.err "Error calling OpenAI API: down"), [])
      ∧ getItem (initialize_chat noFaults (fun _ => .error "down") "t1" "t2" [] "c1" "u1"
          none none (some "hi")).2 "c1" = none :=
  c2_init_gateway_failure_no_persist [] (fun _ => .error "down") "t1" "t2" "c1" "u1"
    "down" none none (some "hi") rfl (by decide) (by decide) (fun _ => rfl)

/-- C3 counterexample: the stored owner `""` differs from the supplied owner
`"alice"`, yet all three operations succeed instead of failing with the owner
mismatch error, because the mismatch check is guarded by Python truthiness of
the stored value. -/
theorem c3_counterexample :
    (initialize_chat noFaults (fun _ => .ok (some "hi")) "t1" "t2" c3Store
        "c1" "alice" none none none).1
        = .ok (.ok "c1" "alice" false [])
      ∧ (initialize_chat noFaults (fun _ => .ok (some "hi")) "t1" "t2" c3Store
          "c1" "alice" none none none).1
        ≠ .ok (.err "User ID mismatch")
      ∧ (add_message_and_get_response noFaults (fun _ => .ok (some "hi")) "t1" "t2" "t3"
          c3Store "c1" "alice" "msg").1
        ≠ .ok (.err "User ID mismatch")
      ∧ get_chat_history noFaults c3Store "c1" "alice"
        ≠ .ok (.err "User ID mismatch") :=
  ⟨rfl, by decide, by decide, by decide⟩

/-- C3 (amended): for every existing session whose stored `owner_id` is
non-empty, if the supplied `owner_id` differs from the stored one then each of
the three operations fails with the `User ID mismatch` error and the stored
state is unchanged. -/
theorem c3_owner_mismatch_rejected
    (st : Store) (gw : Gateway) (t1 t2 t3 chat_id user_id message : String)
    (system_message initial_assistant_message initial_user_message : Option String)
    (item : ChatItem)
    (hget : getItem st chat_id = some item)
    (hne : item.user_id ≠ "")
    (hdiff : item.user_id ≠ user_id) :
    initialize_chat noFaults gw t1 t2 st chat_id user_id
        system_message initial_assistant_message initial_user_message
        = (.ok (.err "User ID mismatch"), st)
      ∧ add_message_and_get_response noFaults gw t1 t2 t3 st chat_id user_id message
        = (.ok (.err "User ID mismatch"), st)
      ∧ get_chat_history noFaults st chat_id user_id
        = .ok (.err "User ID mismatch") := by
  refine ⟨?_, ?_, ?_⟩
  · simp [initialize_chat, noFaults, hget, hne, hdiff]
  · simp [add_message_and_get_response, noFaults, hget, hne, hdiff]
  · simp [get_chat_history, noFaults, hget, hne, hdiff]

/-- Every message surviving the `role != 'system'` filter is non-system. -/
theorem visible_no_system (L : List Message) :
    noSystemMessages (visibleMessages L) = true := by
  simp only [noSystemMessages, visibleMessages, List.all_eq_true]
  intro m hm
  simpa using List.of_mem_filter hm

/-- Inversion for the final `put_item` step of `initialize_chat`: a success
result returns exactly the non-system filtering of the persisted messages. -/
theorem finishInit_ok (f : StoreFaults) (st : Store) (cid uid : String)
    (msgs : List Message) (t1 : String) (c u : String) (n : Bool) (out : List Message)
    (h : (finishInit f st cid uid msgs t1).1 = .ok (.ok c u n out)) :
    out = visibleMessages msgs := by
  unfold finishInit at h
  split at h <;> simp_all

/-- C4: `role=system` messages never appear in the message list returned by
`initialize_chat`; `get_chat_history` returns the stored record itself,
unfiltered (so stored system messages are present in it); and a successful
`add_message_and_get_response` result carries no stored message list at all —
only the single fresh assistant reply of this call's gateway request, plus the
chat and user identifiers. -/
theorem c4_system_message_visibility :
    (∀ (f : StoreFaults) (gw : Gateway) (t1 t2 : String) (st : Store)
        (chat_id user_id : String) (sm ia iu : Option String)
        (c u : String) (n : Bool) (msgs : List Message),
      (initialize_chat f gw t1 t2 st chat_id user_id sm ia iu).1 = .ok (.ok c u n msgs) →
      noSystemMessages msgs = true)
    ∧ (∀ (st : Store) (chat_id user_id : String) (item : ChatItem),
        get_chat_history noFaults st chat_id user_id = .ok (.ok item) →
        getItem st chat_id = some item)
    ∧ (∀ (f : StoreFaults) (gw : Gateway) (t1 t2 t3 : String) (st : Store)
        (chat_id user_id message : String) (reply : Option String) (c u : String),
        (add_message_and_get_response f gw t1 t2 t3 st chat_id user_id message).1
          = .ok (.ok reply c u) →
        c = chat_id ∧ u = user_id ∧
        ∃ item, getItem st chat_id = some item ∧
          call_openai_api gw (toGMsgs (item.messages ++ [⟨"user", some message, t1⟩]))
            = (reply, none)) := by
  refine ⟨?_, ?_, ?_⟩
  · intro f gw t1 t2 st cid uid sm ia iu c u n msgs h
    simp only [initialize_chat] at h
    repeat' split at h
    all_goals try (obtain rfl := finishInit_ok _ _ _ _ _ _ _ _ _ _ h; exact visible_no_system _)
    all_goals simp at h
    all_goals (obtain ⟨-, -, -, rfl⟩ := h; exact visible_no_system _)
  · intro st cid uid item h
    unfold get_chat_history at h
    simp only [noFaults] at h
    repeat' split at h
    all_goals simp at h
    all_goals simp_all
  · intro f gw t1 t2 t3 st cid uid msg reply c u h
    rcases hf : f.getFails with _ | e
    · rcases hget : getItem st cid with _ | item
      · simp [add_message_and_get_response, hf, hget] at h
      · by_cases howner : item.user_id ≠ "" ∧ item.user_id ≠ uid
        · simp [add_message_and_get_response, hf, hget, howner] at h
        · by_cases hquota : MAX_MESSAGES_PER_CHAT ≠ 0 ∧
              userMessageCount item.messages ≥ MAX_MESSAGES_PER_CHAT
          · simp [add_message_and_get_response, hf, hget, howner, hquota] at h
          · simp only [add_message_and_get_response, hf, hget, howner, hquota,
              ite_false, ite_true] at h
            split at h
            · simp at h
            · rename_i heq
              split at h
              · simp at h
              · simp at h
                obtain ⟨h1, rfl, rfl⟩ := h
                exact ⟨rfl, rfl, item, rfl, Prod.ext h1 heq⟩
    · simp [add_message_and_get_response, hf] at h

/-- Witness for C4: a new session seeded with a system message returns only
non-system messages; history returns the stored record with its system
message; an append's success result is reply + identifiers only. -/
theorem c4_witness :
    noSystemMessages [⟨"user", some "hello", "t1"⟩, ⟨"assistant", some "hi", "t2"⟩] = true
    ∧ getItem [⟨"c1", "u1", [⟨"system", some "be terse", "t0"⟩], "t0", "t0"⟩] "c1"
        = some ⟨"c1", "u1", [⟨"system", some "be terse", "t0"⟩], "t0", "t0"⟩
    ∧ ("c1" = "c1" ∧ "u1" = "u1" ∧
        ∃ item, getItem [⟨"c1", "u1", [], "t0", "t0"⟩] "c1" = some item ∧
          call_openai_api (fun _ => .ok (some "hi"))
            (toGMsgs (item.messages ++ [⟨"user", some "yo", "t1"⟩])) = (some "hi", none)) :=
  ⟨c4_system_message_visibility.1 noFaults (fun _ => .ok (some "hi")) "t1" "t2" []
      "c1" "u1" (some "be terse") none (some "hello") "c1" "u1" true
      [⟨"user", some "hello", "t1"⟩, ⟨"assistant", some "hi", "t2"⟩] rfl,
   c4_system_message_visibility.2.1
      [⟨"c1", "u1", [⟨"system", some "be terse", "t0"⟩], "t0", "t0"⟩] "c1" "u1"
      ⟨"c1", "u1", [⟨"system", some "be terse", "t0"⟩], "t0", "t0"⟩ rfl,
   c4_system_message_visibility.2.2 noFaults (fun _ => .ok (some "hi")) "t1" "t2" "t3"
      [⟨"c1", "u1", [], "t0", "t0"⟩] "c1" "u1" "yo" (some "hi") "c1" "u1" rfl⟩

/-- C5: on an existing session (owner check passing), if the stored count of
`user`-role messages is at or above `MAX_MESSAGES_PER_CHAT` the append fails
with the quota error and the store is untouched; and a session below the
user-message quota — regardless of how many system or assistant messages it
holds — proceeds normally, showing only `user`-role messages count. -/
theorem c5_user_message_quota
    (st : Store) (gw : Gateway) (t1 t2 t3 chat_id user_id message : String)
    (item : ChatItem)
    (hget : getItem st chat_id = some item)
    (howner : ¬ (item.user_id ≠ "" ∧ item.user_id ≠ user_id)) :
    (userMessageCount item.messages ≥ MAX_MESSAGES_PER_CHAT →
      add_message_and_get_response noFaults gw t1 t2 t3 st chat_id user_id message
        = (.ok (.err ("Message limit of " ++ toString MAX_MESSAGES_PER_CHAT
            ++ " reached for this chat.")), st))
    ∧ (∀ content : Option String,
        userMessageCount item.messages < MAX_MESSAGES_PER_CHAT →
        gw (toGMsgs (item.messages ++ [⟨"user", some message, t1⟩])) = .ok content →
        add_message_and_get_response noFaults gw t1 t2 t3 st chat_id user_id message
          = (.ok (.ok content chat_id user_id),
             updateItem st chat_id ((item.messages ++ [⟨"user", some message, t1⟩])
               ++ [⟨"assistant", content, t2⟩]) t3)) := by
  constructor
  · intro hq
    have h2 : MAX_MESSAGES_PER_CHAT ≠ 0 ∧
        userMessageCount item.messages ≥ MAX_MESSAGES_PER_CHAT := ⟨by decide, hq⟩
    simp [add_message_and_get_response, noFaults, hget, howner, h2]
  · intro content hlt hgw
    have h2 : ¬ (MAX_MESSAGES_PER_CHAT ≠ 0 ∧
        userMessageCount item.messages ≥ MAX_MESSAGES_PER_CHAT) :=
      fun hh => absurd hh.2 (not_le.2 hlt)
    simp [add_message_and_get_response, noFaults, hget, howner, h2,
      call_openai_api, hgw]

/-- Witness for C5: a session with 100 stored user messages is rejected; a
session with 150 stored system messages (and no user message) is processed. -/
theorem c5_witness :
    add_message_and_get_response noFaults (fun _ => .ok (some "hi")) "t1" "t2" "t3"
        [⟨"c1", "u1", List.replicate 100 ⟨"user", some "x", "t0"⟩, "t0", "t0"⟩]
        "c1" "u1" "one more"
      = (.ok (.err ("Message limit of " ++ toString MAX_MESSAGES_PER_CHAT
          ++ " reached for this chat.")),
         [⟨"c1", "u1", List.replicate 100 ⟨"user", some "x", "t0"⟩, "t0", "t0"⟩])
    ∧ add_message_and_get_response noFaults (fun _ => .ok (some "hi")) "t1" "t2" "t3"
        [⟨"c2", "u1", List.replicate 150 ⟨"system", some "s", "t0"⟩, "t0", "t0"⟩]
        "c2" "u1" "hello"
      = (.ok (.ok (some "hi") "c2" "u1"),
         updateItem [⟨"c2", "u1", List.replicate 150 ⟨"system", some "s", "t0"⟩, "t0", "t0"⟩]
           "c2" ((List.replicate 150 ⟨"system", some "s", "t0"⟩
             ++ [⟨"user", some "hello", "t1"⟩]) ++ [⟨"assistant", some "hi", "t2"⟩]) "t3") :=
  ⟨(c5_user_message_quota
      [⟨"c1", "u1", List.replicate 100 ⟨"user", some "x", "t0"⟩, "t0", "t0"⟩]
      (fun _ => .ok (some "hi")) "t1" "t2" "t3" "c1" "u1" "one more"
      ⟨"c1", "u1", List.replicate 100 ⟨"user", some "x", "t0"⟩, "t0", "t0"⟩
      rfl (by decide)).1 (by decide),
   (c5_user_message_quota
      [⟨"c2", "u1", List.replicate 150 ⟨"system", some "s", "t0"⟩, "t0", "t0"⟩]
      (fun _ => .ok (some "hi")) "t1" "t2" "t3" "c2" "u1" "hello"
      ⟨"c2", "u1", List.replicate 150 ⟨"system", some "s", "t0"⟩, "t0", "t0"⟩
      rfl (by decide)).2 (some "hi") (by decide) rfl⟩

/-- C6: creating a session for an owner who already owns
`MAX_CHATS_PER_USER` or more sessions fails with the owner-quota error, the
store is unchanged, and `get` on the requested session id still returns
absent. -/
theorem c6_owner_quota
    (st : Store) (gw : Gateway) (t1 t2 chat_id user_id : String)
    (sm ia iu : Option String)
    (hget : getItem st chat_id = none)
    (hcount : userChatCount st user_id ≥ MAX_CHATS_PER_USER) :
    initialize_chat noFaults gw t1 t2 st chat_id user_id sm ia iu
        = (.ok (.err ("Maximum number of chats (" ++ toString MAX_CHATS_PER_USER
            ++ ") reached for this user.")), st)
      ∧ getItem (initialize_chat noFaults gw t1 t2 st chat_id user_id sm ia iu).2 chat_id
        = none := by
  have h2 : MAX_CHATS_PER_USER ≠ 0 ∧ userChatCount st user_id ≥ MAX_CHATS_PER_USER :=
    ⟨by decide, hcount⟩
  have h1 : initialize_chat noFaults gw t1 t2 st chat_id user_id sm ia iu
      = (.ok (.err ("Maximum number of chats (" ++ toString MAX_CHATS_PER_USER
          ++ ") reached for this user.")), st) := by
    simp [initialize_chat, noFaults, hget, h2]
  exact ⟨h1, by rw [h1]; exact hget⟩

/-- Witness for C6 at a store of 20 sessions owned by `"u1"`. -/
theorem c6_witness :
    initialize_chat noFaults (fun _ => .ok (some "hi")) "t1" "t2"
        (List.replicate 20 ⟨"c", "u1", [], "t0", "t0"⟩) "c9" "u1" none none none
        = (.ok (.err ("Maximum number of chats (" ++ toString MAX_CHATS_PER_USER
            ++ ") reached for this user.")), List.replicate 20 ⟨"c", "u1", [], "t0", "t0"⟩)
      ∧ getItem (initialize_chat noFaults (fun _ => .ok (some "hi")) "t1" "t2"
          (List.replicate 20 ⟨"c", "u1", [], "t0", "t0"⟩) "c9" "u1" none none none).2 "c9"
        = none :=
  c6_owner_quota (List.replicate 20 ⟨"c", "u1", [], "t0", "t0"⟩)
    (fun _ => .ok (some "hi")) "t1" "t2" "c9" "u1" none none none
    (by decide) (by decide)

/-- C7 counterexample: the Gateway succeeds and returns the reply `""` for a
creation seeded with a user message, the creation succeeds, yet the persisted
message sequence is just the seed user message — the Gateway's reply is not
appended as an assistant message, because the code only appends a truthy
(non-empty) reply. -/
theorem c7_counterexample :
    initialize_chat noFaults (fun _ => .ok (some "")) "t1" "t2" [] "c1" "u1"
        none none (some "hello")
      = (.ok (.ok "c1" "u1" true [⟨"user", some "hello", "t1"⟩]),
         [⟨"c1", "u1", [⟨"user", some "hello", "t1"⟩], "t1", "t1"⟩]) := rfl

/-- C7 (amended): a successful creation persists, in one `put_item` write
with `created_at = updated_at`, the fixed order: optional system message,
optional seed assistant message, optional seed user message, and — when a
seed user message is present and the Gateway's reply is a non-empty string —
that reply appended as an assistant message. -/
theorem c7_new_session_message_order
    (st : Store) (gw : Gateway) (t1 t2 chat_id user_id : String)
    (sm ia iu : Option String)
    (hget : getItem st chat_id = none)
    (hquota : userChatCount st user_id < MAX_CHATS_PER_USER) :
    (truthy iu = false →
      initialize_chat noFaults gw t1 t2 st chat_id user_id sm ia iu
        = (.ok (.ok chat_id user_id true (visibleMessages (seedMessages sm ia iu t1))),
           putItem st ⟨chat_id, user_id, seedMessages sm ia iu t1, t1, t1⟩))
    ∧ (∀ r : String, truthy iu = true →
        gw (toGMsgs (seedMessages sm ia iu t1)) = .ok (some r) →
        r ≠ "" →
        initialize_chat noFaults gw t1 t2 st chat_id user_id sm ia iu
          = (.ok (.ok chat_id user_id true
              (visibleMessages (seedMessages sm ia iu t1 ++ [⟨"assistant", some r, t2⟩]))),
             putItem st ⟨chat_id, user_id,
               seedMessages sm ia iu t1 ++ [⟨"assistant", some r, t2⟩], t1, t1⟩)) := by
  have hq : ¬ (MAX_CHATS_PER_USER ≠ 0 ∧ userChatCount st user_id ≥ MAX_CHATS_PER_USER) :=
    fun hh => absurd hh.2 (not_le.2 hquota)
  constructor
  · intro hiu
    simp [initialize_chat, finishInit, noFaults, hget, hq, hiu, seedMessages]
  · intro r hiu hgw hr
    have hgw2 : gw (toGMsgs ((if truthy sm then [⟨"system", sm, t1⟩] else [])
        ++ ((if truthy ia then [⟨"assistant", ia, t1⟩] else [])
        ++ [⟨"user", iu, t1⟩]))) = .ok (some r) := by
      simpa [seedMessages, hiu, List.append_assoc] using hgw
    have htr : truthy (some r) = true := by simp [truthy, hr]
    simp [initialize_chat, finishInit, noFaults, hget, hq, hiu, call_openai_api,
      hgw2, htr, seedMessages, List.append_assoc]

/-- Witness for the amended C7: with a system seed and a user seed and a
non-empty Gateway reply, the persisted order is system, user, assistant;
without a seed user message, only the seeds are persisted. -/
theorem c7_witness :
    initialize_chat noFaults (fun _ => .ok (some "hi")) "t1" "t2" [] "c1" "u1"
        (some "be terse") none (some "hello")
        = (.ok (.ok "c1" "u1" true
            (visibleMessages (seedMessages (some "be terse") none (some "hello") "t1"
              ++ [⟨"assistant", some "hi", "t2"⟩]))),
           putItem [] ⟨"c1", "u1",
             seedMessages (some "be terse") none (some "hello") "t1"
               ++ [⟨"assistant", some "hi", "t2"⟩], "t1", "t1"⟩)
      ∧ initialize_chat noFaults (fun _ => .ok (some "hi")) "t1" "t2" [] "c2" "u1"
          (some "be terse") (some "welcome") none
        = (.ok (.ok "c2" "u1" true
            (visibleMessages (seedMessages (some "be terse") (some "welcome") none "t1"))),
           putItem [] ⟨"c2", "u1",
             seedMessages (some "be terse") (some "welcome") none "t1", "t1", "t1"⟩) :=
  ⟨(c7_new_session_message_order [] (fun _ => .ok (some "hi")) "t1" "t2" "c1" "u1"
      (some "be terse") none (some "hello") rfl (by decide)).2 "hi" rfl rfl (by decide),
   (c7_new_session_message_order [] (fun _ => .ok (some "hi")) "t1" "t2" "c2" "u1"
      (some "be terse") (some "welcome") none rfl (by decide)).1 rfl⟩

/-- Witness for the amended C3 at a concrete session owned by `"bob"`. -/
theorem c3_witness :
    initialize_chat noFaults (fun _ => .ok (some "hi")) "t1" "t2"
        [⟨"c1", "bob", [], "t0", "t0"⟩] "c1" "alice" none none none
        = (.ok (.err "User ID mismatch"), [⟨"c1", "bob", [], "t0", "t0"⟩])
      ∧ add_message_and_get_response noFaults (fun _ => .ok (some "hi")) "t1" "t2" "t3"
          [⟨"c1", "bob", [], "t0", "t0"⟩] "c1" "alice" "msg"
        = (.ok (.err "User ID mismatch"), [⟨"c1", "bob", [], "t0", "t0"⟩])
      ∧ get_chat_history noFaults [⟨"c1", "bob", [], "t0", "t0"⟩] "c1" "alice"
        = .ok (.err "User ID mismatch") :=
  c3_owner_mismatch_rejected [⟨"c1", "bob", [], "t0", "t0"⟩]
    (fun _ => .ok (some "hi")) "t1" "t2" "t3" "c1" "alice" "msg"
    none none none ⟨"c1", "bob", [], "t0", "t0"⟩ rfl (by decide) (by decide)

/-- C8 counterexample: a request that passes the origin, payload-field and
user checks but carries the route `"bogus"` receives the generic invalid-route
body, yet the HTTP status is 400 — an error status — because the common
mapping sends any result with an `error` key out as 400. -/
theorem c8_counterexample :
    (handler "" noFaults (fun _ => .ok (some "x")) "t1" "t2" "t3" [] c8Event).1
        = ⟨400, some "http://localhost:8000", .errorBody "Invalid route specified"⟩
      ∧ (handler "" noFaults (fun _ => .ok (some "x")) "t1" "t2" "t3" [] c8Event).1.statusCode
        ≠ 200 :=
  ⟨rfl, by decide⟩

/-- C8 (amended): for every request passing the origin, payload-field and
user checks whose route is none of `initialize`, `chat`, `history`, the
handler returns the generic `Invalid route specified` error body through the
common result path — carried with status 400 like any other error result, and
leaving the store untouched. -/
theorem c8_invalid_route_generic_result
    (prodEnv : String) (f : StoreFaults) (gw : Gateway) (t1 t2 t3 : String) (st : Store)
    (origin0 method uid cid : String) (rt : Option String) (p : Payload)
    (hp1 : p.user_id = some uid) (hp2 : p.chat_id = some cid)
    (horig : is_allowed_origin (rstripSlash prodEnv) (rstripSlash origin0) = true)
    (hmeth : method ≠ "OPTIONS")
    (huser : ¬ (rstripSlash origin0 ≠ "http://localhost:8000" ∧ ALLOWED_USER_IDS ≠ []
      ∧ uid ∉ ALLOWED_USER_IDS))
    (hr1 : rt ≠ some "initialize") (hr2 : rt ≠ some "chat") (hr3 : rt ≠ some "history") :
    handler prodEnv f gw t1 t2 t3 st ⟨some origin0, some method, .ok ⟨rt, p⟩⟩
      = (⟨400, some (if rstripSlash prodEnv = "*" then "*" else rstripSlash origin0),
          .errorBody "Invalid route specified"⟩, st) := by
  simp [handler, horig, hmeth, huser, hp1, hp2, hr1, hr2, hr3, respond]

/-- Witness for the amended C8 at a concrete localhost request. -/
theorem c8_witness :
    handler "" noFaults (fun _ => .ok (some "x")) "t1" "t2" "t3" [] c8Event
      = (⟨400, some (if rstripSlash "" = "*" then "*"
          else rstripSlash "http://localhost:8000"),
          .errorBody "Invalid route specified"⟩, []) :=
  c8_invalid_route_generic_result "" noFaults (fun _ => .ok (some "x")) "t1" "t2" "t3"
    [] "http://localhost:8000" "POST" "u1" "c1" (some "bogus")
    { emptyPayload with user_id := some "u1", chat_id := some "c1" }
    rfl rfl (by decide) (by decide) (by decide) (by decide) (by decide) (by decide)

/-- C9 counterexample: with a table whose `get_item` raises, `initialize_chat`
lets the exception escape its own boundary (there is no try/except inside any
of the three operations) instead of converting it to an `{error: ...}`
result. -/
theorem c9_counterexample :
    (initialize_chat getRaises (fun _ => .ok (some "x")) "t1" "t2" [] "c1" "u1"
        none none none).1
        = .error "boom"
      ∧ ∀ m : String,
        (initialize_chat getRaises (fun _ => .ok (some "x")) "t1" "t2" [] "c1" "u1"
            none none none).1
          ≠ .ok (.err m) :=
  ⟨rfl, fun _ h => by simp [initialize_chat, getRaises] at h⟩

/-- C9 (amended): exceptions raised inside the three Session Service
operations may propagate past the operation boundary; it is the Request
Router's catch-all that converts any such exception to a structured
`{error: message}` body, sent with status 500. -/
theorem c9_router_converts_escaped_exceptions
    (prodEnv : String) (f : StoreFaults) (gw : Gateway) (t1 t2 t3 : String) (st : Store)
    (origin0 method uid cid msg e : String) (p : Payload)
    (hp1 : p.user_id = some uid) (hp2 : p.chat_id = some cid) (hp3 : p.message = some msg)
    (horig : is_allowed_origin (rstripSlash prodEnv) (rstripSlash origin0) = true)
    (hmeth : method ≠ "OPTIONS")
    (huser : ¬ (rstripSlash origin0 ≠ "http://localhost:8000" ∧ ALLOWED_USER_IDS ≠ []
      ∧ uid ∉ ALLOWED_USER_IDS))
    (hf : f.getFails = some e) :
    handler prodEnv f gw t1 t2 t3 st ⟨some origin0, some method, .ok ⟨some "initialize", p⟩⟩
        = (⟨500, some (if rstripSlash prodEnv = "*" then "*" else rstripSlash origin0),
            .errorBody e⟩, st)
      ∧ handler prodEnv f gw t1 t2 t3 st ⟨some origin0, some method, .ok ⟨some "chat", p⟩⟩
        = (⟨500, some (if rstripSlash prodEnv = "*" then "*" else rstripSlash origin0),
            .errorBody e⟩, st)
      ∧ handler prodEnv f gw t1 t2 t3 st ⟨some origin0, some method, .ok ⟨some "history", p⟩⟩
        = (⟨500, some (if rstripSlash prodEnv = "*" then "*" else rstripSlash origin0),
            .errorBody e⟩, st) := by
  refine ⟨?_, ?_, ?_⟩ <;>
    simp [handler, horig, hmeth, huser, hp1, hp2, hp3, hf,
      initialize_chat, add_message_and_get_response, get_chat_history]

/-- Witness for the amended C9 at a concrete localhost request and a raising
table. -/
theorem c9_witness :
    handler "" getRaises (fun _ => .ok (some "x")) "t1" "t2" "t3" []
        ⟨some "http://localhost:8000", some "POST",
          .ok ⟨some "initialize", ⟨some "u1", some "c1", some "m", none, none, none⟩⟩⟩
        = (⟨500, some (if rstripSlash "" = "*" then "*"
            else rstripSlash "http://localhost:8000"), .errorBody "boom"⟩, [])
      ∧ handler "" getRaises (fun _ => .ok (some "x")) "t1" "t2" "t3" []
          ⟨some "http://localhost:8000", some "POST",
            .ok ⟨some "chat", ⟨some "u1", some "c1", some "m", none, none, none⟩⟩⟩
        = (⟨500, some (if rstripSlash "" = "*" then "*"
            else rstripSlash "http://localhost:8000"), .errorBody "boom"⟩, [])
      ∧ handler "" getRaises (fun _ => .ok (some "x")) "t1" "t2" "t3" []
          ⟨some "http://localhost:8000", some "POST",
            .ok ⟨some "history", ⟨some "u1", some "c1", some "m", none, none, none⟩⟩⟩
        = (⟨500, some (if rstripSlash "" = "*" then "*"
            else rstripSlash "http://localhost:8000"), .errorBody "boom"⟩, []) :=
  c9_router_converts_escaped_exceptions "" getRaises (fun _ => .ok (some "x"))
    "t1" "t2" "t3" [] "http://localhost:8000" "POST" "u1" "c1" "m" "boom"
    ⟨some "u1", some "c1", some "m", none, none, none⟩
    rfl rfl rfl (by decide) (by decide) (by decide) rfl

/-- C10: when the Gateway call succeeds but its reply content is `None`,
`initialize_chat` omits the assistant message from the newly persisted
session, while `add_message_and_get_response` persists an assistant message
whose content is `None` and returns that `None` as the reply. -/
theorem c10_empty_reply_divergence
    (st1 st2 : Store) (gw1 gw2 : Gateway) (t1 t2 t3 : String)
    (cid1 uid1 cid2 uid2 message : String)
    (sm ia iu : Option String) (item : ChatItem) :
    (getItem st1 cid1 = none →
     userChatCount st1 uid1 < MAX_CHATS_PER_USER →
     truthy iu = true →
     gw1 (toGMsgs (seedMessages sm ia iu t1)) = .ok none →
     initialize_chat noFaults gw1 t1 t2 st1 cid1 uid1 sm ia iu
       = (.ok (.ok cid1 uid1 true (visibleMessages (seedMessages sm ia iu t1))),
          putItem st1 ⟨cid1, uid1, seedMessages sm ia iu t1, t1, t1⟩))
    ∧ (getItem st2 cid2 = some item →
       ¬ (item.user_id ≠ "" ∧ item.user_id ≠ uid2) →
       userMessageCount item.messages < MAX_MESSAGES_PER_CHAT →
       gw2 (toGMsgs (item.messages ++ [⟨"user", some message, t1⟩])) = .ok none →
       add_message_and_get_response noFaults gw2 t1 t2 t3 st2 cid2 uid2 message
         = (.ok (.ok none cid2 uid2),
            updateItem st2 cid2 ((item.messages ++ [⟨"user", some message, t1⟩])
              ++ [⟨"assistant", none, t2⟩]) t3)) := by
  constructor
  · intro hget hquota hiu hgw
    have hq : ¬ (MAX_CHATS_PER_USER ≠ 0 ∧ userChatCount st1 uid1 ≥ MAX_CHATS_PER_USER) :=
      fun hh => absurd hh.2 (not_le.2 hquota)
    have hgw2 : gw1 (toGMsgs ((if truthy sm then [⟨"system", sm, t1⟩] else [])
        ++ ((if truthy ia then [⟨"assistant", ia, t1⟩] else [])
        ++ [⟨"user", iu, t1⟩]))) = .ok none := by
      simpa [seedMessages, hiu, List.append_assoc] using hgw
    have htn : truthy none = false := rfl
    simp [initialize_chat, finishInit, noFaults, hget, hq, hiu, call_openai_api,
      hgw2, htn, seedMessages, List.append_assoc]
  · intro hget howner hquota hgw
    have hq : ¬ (MAX_MESSAGES_PER_CHAT ≠ 0 ∧
        userMessageCount item.messages ≥ MAX_MESSAGES_PER_CHAT) :=
      fun hh => absurd hh.2 (not_le.2 hquota)
    simp [add_message_and_get_response, noFaults, hget, howner, hq,
      call_openai_api, hgw]

/-- Witness for C10 at concrete sessions and a gateway replying `None`. -/
theorem c10_witness :
    initialize_chat noFaults (fun _ => .ok none) "t1" "t2" [] "c1" "u1"
        none none (some "hello")
        = (.ok (.ok "c1" "u1" true
            (visibleMessages (seedMessages none none (some "hello") "t1"))),
           putItem [] ⟨"c1", "u1", seedMessages none none (some "hello") "t1", "t1", "t1"⟩)
      ∧ add_message_and_get_response noFaults (fun _ => .ok none) "t1" "t2" "t3"
          [⟨"c2", "u1", [], "t0", "t0"⟩] "c2" "u1" "hello"
        = (.ok (.ok none "c2" "u1"),
           updateItem [⟨"c2", "u1", [], "t0", "t0"⟩] "c2"
             (([] ++ [⟨"user", some "hello", "t1"⟩]) ++ [⟨"assistant", none, "t2"⟩]) "t3") :=
  ⟨(c10_empty_reply_divergence [] [⟨"c2", "u1", [], "t0", "t0"⟩]
      (fun _ => .ok none) (fun _ => .ok none) "t1" "t2" "t3" "c1" "u1" "c2" "u1"
      "hello" none none (some "hello") ⟨"c2", "u1", [], "t0", "t0"⟩).1
      rfl (by decide) rfl rfl,
   (c10_empty_reply_divergence [] [⟨"c2", "u1", [], "t0", "t0"⟩]
      (fun _ => .ok none) (fun _ => .ok none) "t1" "t2" "t3" "c1" "u1" "c2" "u1"
      "hello" none none (some "hello") ⟨"c2", "u1", [], "t0", "t0"⟩).2
      rfl (by decide) (by decide) rfl⟩

end Scale
